import Mathlib

/-!
Shallow embedding of the archon analysis core: the category-score
calculator and orchestrator (`app/libs/analysis_engine.py`), the process
sandbox (`app/libs/utils/process_utils.py`), the structure scorer
(`app/libs/structure_scorer.py`), the duplication adapter
(`app/analyzers/structure/jscpd_analyzer.py`) and the security adapter
(`app/libs/analyzers/bandit_analyzer.py`), together with theorems
settling the specification claims about them.

Python floats are modelled by rationals: every quantity the scorers
manipulate (integer penalties subtracted from 100.0, fixed decimal
weights) is exactly representable, so rational arithmetic is the exact
semantics of the code on its reachable values.
-/

namespace AnalysisEngine

/-- Mirrors the `StandardizedIssue` dict shape of `analysis_engine.py`:
category, severity, title, description, file_path, line_number. -/
structure StdIssue where
  category : String
  severity : String
  title : String
  description : String
  file_path : String
  line_number : Nat
deriving DecidableEq, Repr

/-- Mirrors `SEVERITY_MAPPING` (`analysis_engine.py` lines 7-13): the
bandit severity vocabulary, as a partial lookup (`dict.get`). -/
def SEVERITY_MAPPING (s : String) : Option String :=
  if s = "LOW" then some "Low"
  else if s = "MEDIUM" then some "Medium"
  else if s = "HIGH" then some "High"
  else none

/-- Mirrors `SEVERITY_PENALTIES.get(severity, 0)` (lines 15-20 and 107):
Critical 20, High 10, Medium 5, Low 1, anything else 0. -/
def SEVERITY_PENALTIES (s : String) : ℚ :=
  if s = "Critical" then 20
  else if s = "High" then 10
  else if s = "Medium" then 5
  else if s = "Low" then 1
  else 0

/-- The four running category scores of `_calculate_scores` (the `scores`
dict before the weighted overall score is appended). -/
structure CatScores where
  structureScore : ℚ
  codeQuality : ℚ
  security : ℚ
  dependencies : ℚ
deriving DecidableEq, Repr

/-- One step of the penalty loop in `_calculate_scores` (lines 106-109):
subtract the issue's penalty from its category's score when the category
is one of the four keys of the `scores` dict, else leave it unchanged. -/
def applyIssue (s : CatScores) (i : StdIssue) : CatScores :=
  let p := SEVERITY_PENALTIES i.severity
  if i.category = "Structure" then { s with structureScore := s.structureScore - p }
  else if i.category = "Code Quality" then { s with codeQuality := s.codeQuality - p }
  else if i.category = "Security" then { s with security := s.security - p }
  else if i.category = "Dependencies" then { s with dependencies := s.dependencies - p }
  else s

/-- Mirrors `_calculate_scores` (lines 97-124): start each category at
100.0, subtract per-issue penalties, clamp at floor 0, and compute the
weighted overall score with weights 0.4 / 0.3 / 0.2 / 0.1
(`CATEGORY_WEIGHTS`, lines 23-28). Returns the clamped category scores
and the overall score. -/
def _calculate_scores (issues : List StdIssue) : CatScores × ℚ :=
  let raw := issues.foldl applyIssue ⟨100, 100, 100, 100⟩
  let clamped : CatScores :=
    ⟨max 0 raw.structureScore, max 0 raw.codeQuality,
     max 0 raw.security, max 0 raw.dependencies⟩
  let overall :=
    clamped.structureScore * (4/10) + clamped.codeQuality * (3/10) +
    clamped.security * (2/10) + clamped.dependencies * (1/10)
  (clamped, overall)

/-- Total penalty charged against one category by a list of issues. -/
def penSum (cat : String) (issues : List StdIssue) : ℚ :=
  (issues.map (fun i => if i.category = cat then SEVERITY_PENALTIES i.severity else 0)).sum

theorem applyIssue_structureScore (s : CatScores) (i : StdIssue) :
    (applyIssue s i).structureScore =
      s.structureScore - (if i.category = "Structure" then SEVERITY_PENALTIES i.severity else 0) := by
  unfold applyIssue
  split_ifs <;> simp_all

theorem applyIssue_codeQuality (s : CatScores) (i : StdIssue) :
    (applyIssue s i).codeQuality =
      s.codeQuality - (if i.category = "Code Quality" then SEVERITY_PENALTIES i.severity else 0) := by
  unfold applyIssue
  split_ifs <;> simp_all

theorem applyIssue_security (s : CatScores) (i : StdIssue) :
    (applyIssue s i).security =
      s.security - (if i.category = "Security" then SEVERITY_PENALTIES i.severity else 0) := by
  unfold applyIssue
  split_ifs <;> simp_all

theorem applyIssue_dependencies (s : CatScores) (i : StdIssue) :
    (applyIssue s i).dependencies =
      s.dependencies - (if i.category = "Dependencies" then SEVERITY_PENALTIES i.severity else 0) := by
  unfold applyIssue
  split_ifs <;> simp_all

theorem foldl_applyIssue (issues : List StdIssue) (s : CatScores) :
    issues.foldl applyIssue s =
      ⟨s.structureScore - penSum "Structure" issues,
       s.codeQuality - penSum "Code Quality" issues,
       s.security - penSum "Security" issues,
       s.dependencies - penSum "Dependencies" issues⟩ := by
  induction issues generalizing s with
  | nil => simp [penSum]
  | cons i t ih =>
      rw [List.foldl_cons, ih]
      have h1 := applyIssue_structureScore s i
      have h2 := applyIssue_codeQuality s i
      have h3 := applyIssue_security s i
      have h4 := applyIssue_dependencies s i
      simp only [penSum, List.map_cons, List.sum_cons] at *
      rw [h1, h2, h3, h4]
      simp only [CatScores.mk.injEq]
      refine ⟨by ring, by ring, by ring, by ring⟩

theorem calculate_scores_closed (issues : List StdIssue) :
    _calculate_scores issues =
      (⟨max 0 (100 - penSum "Structure" issues),
        max 0 (100 - penSum "Code Quality" issues),
        max 0 (100 - penSum "Security" issues),
        max 0 (100 - penSum "Dependencies" issues)⟩,
       max 0 (100 - penSum "Structure" issues) * (4/10) +
       max 0 (100 - penSum "Code Quality" issues) * (3/10) +
       max 0 (100 - penSum "Security" issues) * (2/10) +
       max 0 (100 - penSum "Dependencies" issues) * (1/10)) := by
  unfold _calculate_scores
  rw [foldl_applyIssue]

theorem penSum_perm {l1 l2 : List StdIssue} (h : l1.Perm l2) (cat : String) :
    penSum cat l1 = penSum cat l2 :=
  List.Perm.sum_eq (List.Perm.map _ h)

end AnalysisEngine

namespace AnalysisEngine

theorem SEVERITY_PENALTIES_nonneg (s : String) : 0 ≤ SEVERITY_PENALTIES s := by
  unfold SEVERITY_PENALTIES
  split_ifs <;> norm_num

theorem penSum_nonneg (cat : String) (l : List StdIssue) : 0 ≤ penSum cat l := by
  refine List.sum_nonneg ?_
  intro x hx
  simp only [penSum, List.mem_map] at hx
  obtain ⟨i, _, rfl⟩ := hx
  split_ifs
  · exact SEVERITY_PENALTIES_nonneg _
  · exact le_refl 0

theorem clamped_bounds (p : ℚ) (hp : 0 ≤ p) :
    0 ≤ max 0 (100 - p) ∧ max 0 (100 - p) ≤ 100 :=
  ⟨le_max_left 0 _, max_le (by norm_num) (by linarith)⟩

/-- C2: the Category Score Calculator is a pure, order-independent
function of its input: for every issue list and every permutation of it,
`_calculate_scores` returns identical four category scores and an
identical overall score, and running it twice on the same list returns
identical results. -/
theorem claim_C2_calculate_scores_order_independent
    (l1 l2 : List StdIssue) (h : l1.Perm l2) :
    _calculate_scores l1 = _calculate_scores l2 ∧
    _calculate_scores l1 = _calculate_scores l1 := by
  refine ⟨?_, rfl⟩
  rw [calculate_scores_closed, calculate_scores_closed,
      penSum_perm h "Structure", penSum_perm h "Code Quality",
      penSum_perm h "Security", penSum_perm h "Dependencies"]

/-- Witness for C2 at a concrete two-issue list and its swap. -/
theorem claim_C2_witness :
    _calculate_scores
        [⟨"Security", "Critical", "t1", "d1", "a.py", 3⟩,
         ⟨"Structure", "High", "t2", "d2", "b.py", 7⟩] =
      _calculate_scores
        [⟨"Structure", "High", "t2", "d2", "b.py", 7⟩,
         ⟨"Security", "Critical", "t1", "d1", "a.py", 3⟩] :=
  (claim_C2_calculate_scores_order_independent _ _ (List.Perm.swap _ _ _)).1

/-- C3: for every issue list (any mix of categories and severities, any
length, including empty), each of the four category scores returned by
`_calculate_scores` lies in [0,100] and the overall score lies in
[0,100]. -/
theorem claim_C3_scores_bounded (issues : List StdIssue) :
    (0 ≤ (_calculate_scores issues).1.structureScore ∧ (_calculate_scores issues).1.structureScore ≤ 100) ∧
    (0 ≤ (_calculate_scores issues).1.codeQuality ∧ (_calculate_scores issues).1.codeQuality ≤ 100) ∧
    (0 ≤ (_calculate_scores issues).1.security ∧ (_calculate_scores issues).1.security ≤ 100) ∧
    (0 ≤ (_calculate_scores issues).1.dependencies ∧ (_calculate_scores issues).1.dependencies ≤ 100) ∧
    (0 ≤ (_calculate_scores issues).2 ∧ (_calculate_scores issues).2 ≤ 100) := by
  have h1 := clamped_bounds _ (penSum_nonneg "Structure" issues)
  have h2 := clamped_bounds _ (penSum_nonneg "Code Quality" issues)
  have h3 := clamped_bounds _ (penSum_nonneg "Security" issues)
  have h4 := clamped_bounds _ (penSum_nonneg "Dependencies" issues)
  rw [calculate_scores_closed]
  refine ⟨⟨h1.1, h1.2⟩, ⟨h2.1, h2.2⟩, ⟨h3.1, h3.2⟩, ⟨h4.1, h4.2⟩, ?_, ?_⟩
  · have := h1.1; have := h2.1; have := h3.1; have := h4.1
    dsimp only
    linarith
  · have := h1.2; have := h2.2; have := h3.2; have := h4.2
    dsimp only
    linarith

/-- C4: a single Critical issue in Security (any title, description,
file and line) makes `_calculate_scores` return security 80.0 exactly,
the other three category scores 100.0, and overall
0.4*100 + 0.3*100 + 0.2*80 + 0.1*100 = 96.0. -/
theorem claim_C4_single_critical_security (t d f : String) (n : Nat) :
    _calculate_scores [⟨"Security", "Critical", t, d, f, n⟩] =
      (⟨100, 100, 80, 100⟩, 96) := by
  rw [calculate_scores_closed]
  simp only [penSum, List.map_cons, List.map_nil, List.sum_cons, List.sum_nil,
    SEVERITY_PENALTIES, String.reduceEq, reduceIte]
  norm_num

end AnalysisEngine

namespace AnalysisEngine

/-- One record of ruff's JSON array output, restricted to the fields
`_parse_ruff_output` reads: `code`, `message`, `filename`,
`location.row`. -/
structure RuffItem where
  code : String
  message : String
  filename : String
  row : Nat
deriving DecidableEq, Repr

/-- One record of the `results` array of bandit's JSON output, restricted
to the fields `_parse_bandit_output` reads. -/
structure BanditItem where
  issue_severity : String
  issue_text : String
  issue_confidence : String
  more_info : String
  filename : String
  line_number : Nat
deriving DecidableEq, Repr

/-- The JSON value `_run_tool` hands to the ruff parser: either the empty
dict returned on a tool failure, or ruff's array of records. -/
inductive RuffJson where
  | emptyDict
  | arr (items : List RuffItem)
deriving DecidableEq, Repr

/-- The JSON value `_run_tool` hands to the bandit parser: either the
empty dict returned on a tool failure, or bandit's object, whose
`results` key may be absent. -/
inductive BanditJson where
  | emptyDict
  | dict (results : Option (List BanditItem))
deriving DecidableEq, Repr

/-- Outcome of one `subprocess.run(..., check=True)` invocation inside
`_run_tool`: the spawn fails with FileNotFoundError (binary missing),
the tool exits non-zero (CalledProcessError), its stdout fails JSON
decoding, or it produces a parsed JSON value. -/
inductive ToolRun (α : Type) where
  | fileNotFound
  | nonzeroExit (stderr : String)
  | badJson
  | output (val : α)
deriving DecidableEq, Repr

/-- Mirrors `_run_tool` (`analysis_engine.py` lines 40-63): a missing
binary re-raises FileNotFoundError (modelled as `Except.error`); a
non-zero exit or undecodable JSON returns the empty dict `dict0`; a
successful run returns the decoded JSON. -/
def _run_tool {α : Type} (dict0 : α) : ToolRun α → Except Unit α
  | ToolRun.fileNotFound => Except.error ()
  | ToolRun.nonzeroExit _ => Except.ok dict0
  | ToolRun.badJson => Except.ok dict0
  | ToolRun.output v => Except.ok v

/-- Mirrors `_parse_ruff_output` (lines 66-78); iterating the empty dict
yields no records. -/
def _parse_ruff_output : RuffJson → List StdIssue
  | RuffJson.emptyDict => []
  | RuffJson.arr items => items.map (fun it =>
      ⟨"Code Quality", "Medium", it.code ++ ": " ++ it.message, it.message,
       it.filename, it.row⟩)

/-- Mirrors `_parse_bandit_output` (lines 81-94); a payload without a
`results` key (in particular the empty dict) yields no records. -/
def _parse_bandit_output : BanditJson → List StdIssue
  | BanditJson.emptyDict => []
  | BanditJson.dict none => []
  | BanditJson.dict (some rs) => rs.map (fun it =>
      ⟨"Security", (SEVERITY_MAPPING it.issue_severity).getD "Medium",
       it.issue_text,
       "Confidence: " ++ it.issue_confidence ++ ". More info: " ++ it.more_info,
       it.filename, it.line_number⟩)

/-- Environment of one `run_analysis` call: the outcome of the ruff
invocation and of the bandit invocation. -/
structure RunEnv where
  ruff : ToolRun RuffJson
  bandit : ToolRun BanditJson
deriving DecidableEq, Repr

/-- The report dict assembled by `run_analysis` (lines 150-157). -/
structure Report where
  overall_score : ℚ
  structure_score : ℚ
  quality_score : ℚ
  security_score : ℚ
  dependencies_score : ℚ
  issues : List StdIssue
deriving DecidableEq, Repr

/-- Report built from an issue corpus, as in steps 3-4 of
`run_analysis`. -/
def reportOf (allIssues : List StdIssue) : Report :=
  let s := _calculate_scores allIssues
  ⟨s.2, s.1.structureScore, s.1.codeQuality, s.1.security, s.1.dependencies,
   allIssues⟩

/-- Mirrors `run_analysis` (lines 127-160): run ruff then bandit through
`_run_tool` (an exception from either propagates), parse both outputs,
concatenate, score, and assemble the report. -/
def run_analysis (env : RunEnv) : Except Unit Report := do
  let ruffOutput ← _run_tool RuffJson.emptyDict env.ruff
  let banditOutput ← _run_tool BanditJson.emptyDict env.bandit
  let ruffIssues := _parse_ruff_output ruffOutput
  let banditIssues := _parse_bandit_output banditOutput
  pure (reportOf (ruffIssues ++ banditIssues))

/-- The JSON value a non-aborting bandit run hands its parser (the empty
dict on a non-fatal failure), used to state which issues a run's report
contains. -/
def banditJsonOf : ToolRun BanditJson → BanditJson
  | ToolRun.output v => v
  | _ => BanditJson.emptyDict

/-- The JSON value a non-aborting ruff run hands its parser (the empty
dict on a non-fatal failure), used to state which issues a run's report
contains. -/
def ruffJsonOf : ToolRun RuffJson → RuffJson
  | ToolRun.output v => v
  | _ => RuffJson.emptyDict

/-- Whether a tool run failed without raising: a non-zero exit
(CalledProcessError) or undecodable stdout (JSONDecodeError), the two
cases `_run_tool` converts to the empty dict. -/
def ToolRun.isNonFatalFailure {α : Type} : ToolRun α → Bool
  | ToolRun.nonzeroExit _ => true
  | ToolRun.badJson => true
  | _ => false

/-- C1 counterexample: with the ruff binary missing (the spawn reports
file-not-found) and bandit perfectly healthy, `run_analysis` does not
return an AnalysisReport at all — the FileNotFoundError propagates and
the run aborts. -/
theorem claim_C1_counterexample :
    run_analysis ⟨ToolRun.fileNotFound, ToolRun.output (BanditJson.dict none)⟩ =
      Except.error () := rfl

/-- C1 amended: a missing analyzer binary aborts `run_analysis` (the
FileNotFoundError re-raised by `_run_tool` propagates); a run returns a
complete AnalysisReport exactly when neither spawn reports
file-not-found, in which case the report's issue list is exactly ruff's
contribution followed by bandit's, and either adapter whose tool fails
non-fatally (non-zero exit or undecodable JSON) contributes zero issues
to that report. -/
theorem claim_C1_amended (env : RunEnv) :
    ((∃ rep, run_analysis env = Except.ok rep) ↔
      env.ruff ≠ ToolRun.fileNotFound ∧ env.bandit ≠ ToolRun.fileNotFound) ∧
    (env.ruff ≠ ToolRun.fileNotFound → env.bandit ≠ ToolRun.fileNotFound →
      run_analysis env =
        Except.ok (reportOf
          (_parse_ruff_output (ruffJsonOf env.ruff) ++
           _parse_bandit_output (banditJsonOf env.bandit)))) ∧
    (env.ruff.isNonFatalFailure = true →
      _parse_ruff_output (ruffJsonOf env.ruff) = []) ∧
    (env.bandit.isNonFatalFailure = true →
      _parse_bandit_output (banditJsonOf env.bandit) = []) := by
  obtain ⟨r, b⟩ := env
  cases r <;> cases b <;>
    simp [run_analysis, _run_tool, banditJsonOf, ruffJsonOf,
      ToolRun.isNonFatalFailure, _parse_ruff_output, _parse_bandit_output,
      bind, Except.bind, pure, Except.pure]

/-- Witness for C1 amended: ruff succeeds with one finding while bandit
exits non-zero; the run completes, the report's issues are exactly
ruff's contribution followed by bandit's, and the non-fatally failing
bandit adapter contributes zero issues. -/
theorem claim_C1_witness :
    run_analysis ⟨ToolRun.output (RuffJson.arr [⟨"F841", "unused", "m.py", 3⟩]),
        ToolRun.nonzeroExit "boom"⟩ =
      Except.ok (reportOf
        (_parse_ruff_output (ruffJsonOf
            (ToolRun.output (RuffJson.arr [⟨"F841", "unused", "m.py", 3⟩]))) ++
         _parse_bandit_output (banditJsonOf
            ((ToolRun.nonzeroExit "boom" : ToolRun BanditJson))))) ∧
    _parse_bandit_output (banditJsonOf
        ((ToolRun.nonzeroExit "boom" : ToolRun BanditJson))) = [] :=
  ⟨(claim_C1_amended ⟨ToolRun.output (RuffJson.arr [⟨"F841", "unused", "m.py", 3⟩]),
        ToolRun.nonzeroExit "boom"⟩).2.1 (by decide) (by decide),
   (claim_C1_amended ⟨ToolRun.output (RuffJson.arr [⟨"F841", "unused", "m.py", 3⟩]),
        ToolRun.nonzeroExit "boom"⟩).2.2.2 rfl⟩

end AnalysisEngine

namespace ProcessUtils

/-- Outcome of the single `subprocess.run` attempt inside `run_command`
(`process_utils.py` lines 39-83): the process completes with a return
code and captured stdout/stderr, or the attempt raises TimeoutExpired,
FileNotFoundError, PermissionError, or some other exception. -/
inductive SpawnOutcome where
  | completed (returncode : Int) (stdout stderr : String)
  | timedOut
  | fileNotFound
  | permissionDenied
  | unexpectedError (msg : String)
deriving DecidableEq, Repr

/-- Environment of one `run_command` call: which paths exist
(`os.path.exists`) and how the spawn attempt turns out. -/
structure Env where
  pathExists : String → Bool
  spawn : SpawnOutcome

/-- Python `str.lower` on the ASCII tool names involved (`Char.toLower`
character by character). -/
def pyLower (s : String) : String := String.mk (s.data.map Char.toLower)

/-- Python space-join of the command list. -/
def joinSpace : List String → String
  | [] => ""
  | [x] => x
  | x :: xs => x ++ " " ++ joinSpace xs

/-- Failure message of the non-whitelisted exit-code branch
(`process_utils.py` line 63). -/
def exitFailureMsg (command : List String) (rc : Int) (errorOutput : String) : String :=
  "Command \x27" ++ joinSpace command ++ "\x27 failed with exit code " ++
    toString rc ++ ":\n" ++ errorOutput

/-- Mirrors `run_command` (`process_utils.py` lines 8-83): validate the
command list and working directory, then branch on the spawn outcome and
the tool-aware exit-code policy (0 always succeeds; bandit and ruff also
succeed on exit code 1; everything else fails with stderr, falling back
to stdout, in the message). Every path returns a (Bool, String) pair. -/
def run_command (env : Env) (command : List String) (cwd : String)
    (timeout : Nat) : Bool × String :=
  if command = [] then
    (false, "Parameter \x27command\x27 must be a non-empty list")
  else if cwd = "" then
    (false, "Parameter \x27cwd\x27 must be a non-empty string")
  else if env.pathExists cwd = false then
    (false, "Directory \x27" ++ cwd ++ "\x27 does not exist")
  else
    match env.spawn with
    | SpawnOutcome.completed rc stdout stderr =>
        let toolName := pyLower (command.headD "")
        if rc = 0 then (true, stdout)
        else if toolName = "bandit" ∧ rc = 1 then (true, stdout)
        else if toolName = "ruff" ∧ rc = 1 then (true, stdout)
        else
          let errorOutput := if stderr ≠ "" then stderr else stdout
          (false, exitFailureMsg command rc errorOutput)
    | SpawnOutcome.timedOut =>
        (false, "Command \x27" ++ command.headD "" ++ "\x27 exceeded timeout of " ++
          toString timeout ++ " seconds")
    | SpawnOutcome.fileNotFound =>
        (false, "Command \x27" ++ command.headD "" ++ "\x27 not found. Is it installed?")
    | SpawnOutcome.permissionDenied =>
        (false, "Permission denied to execute \x27" ++ command.headD "" ++ "\x27")
    | SpawnOutcome.unexpectedError m =>
        (false, "Unexpected error running \x27" ++ command.headD "" ++ "\x27: " ++ m)

/-- C9: the sandbox's exit-code policy. With a valid command and an
existing working directory, when the spawned process completes:
exit code 0 returns success with the captured stdout; for the tools
named bandit and ruff exit code 1 also returns success with stdout;
every other exit code returns failure, and the returned output carries
the captured stderr, falling back to stdout when stderr is empty. -/
theorem claim_C9_exit_code_policy (env : Env) (command : List String)
    (cwd : String) (timeout : Nat) (rc : Int) (stdout stderr : String)
    (hc : command ≠ []) (hw : cwd ≠ "") (he : env.pathExists cwd = true)
    (hs : env.spawn = SpawnOutcome.completed rc stdout stderr) :
    (rc = 0 → run_command env command cwd timeout = (true, stdout)) ∧
    (rc = 1 → (pyLower (command.headD "") = "bandit" ∨ pyLower (command.headD "") = "ruff") →
      run_command env command cwd timeout = (true, stdout)) ∧
    (rc ≠ 0 → ¬(rc = 1 ∧ (pyLower (command.headD "") = "bandit" ∨ pyLower (command.headD "") = "ruff")) →
      run_command env command cwd timeout =
        (false, exitFailureMsg command rc (if stderr = "" then stdout else stderr))) := by
  have hcompleted : run_command env command cwd timeout =
      (if rc = 0 then (true, stdout)
       else if pyLower (command.headD "") = "bandit" ∧ rc = 1 then (true, stdout)
       else if pyLower (command.headD "") = "ruff" ∧ rc = 1 then (true, stdout)
       else (false, exitFailureMsg command rc (if stderr ≠ "" then stderr else stdout))) := by
    simp [run_command, hc, hw, he, hs]
  refine ⟨?_, ?_, ?_⟩
  · intro h0
    subst h0
    simp [hcompleted]
  · intro h1 htool
    subst h1
    rw [hcompleted, if_neg (by norm_num)]
    rcases htool with ht | ht
    · rw [if_pos ⟨ht, rfl⟩]
    · rw [if_neg ?_, if_pos ⟨ht, rfl⟩]
      rintro ⟨hb, -⟩
      rw [ht] at hb
      exact absurd hb (by decide)
  · intro hne hnw
    have hb : ¬(pyLower (command.headD "") = "bandit" ∧ rc = 1) := by
      rintro ⟨ht, h1⟩; exact hnw ⟨h1, Or.inl ht⟩
    have hr : ¬(pyLower (command.headD "") = "ruff" ∧ rc = 1) := by
      rintro ⟨ht, h1⟩; exact hnw ⟨h1, Or.inr ht⟩
    rw [hcompleted, if_neg hne, if_neg hb, if_neg hr]
    by_cases hstderr : stderr = "" <;> simp [hstderr]

/-- Witness for C9: concrete calls exercising the three branches of the
exit-code policy (radon exiting 0, bandit exiting 1, ruff exiting 2 with
empty stderr). -/
theorem claim_C9_witness :
    run_command ⟨fun _ => true, SpawnOutcome.completed 0 "out" "err"⟩
        ["radon", "cc"] "/tmp/p" 60 = (true, "out") ∧
    run_command ⟨fun _ => true, SpawnOutcome.completed 1 "findings" "err"⟩
        ["bandit", "-r", "."] "/tmp/p" 60 = (true, "findings") ∧
    run_command ⟨fun _ => true, SpawnOutcome.completed 2 "partial" ""⟩
        ["ruff", "check", "."] "/tmp/p" 60 =
      (false, exitFailureMsg ["ruff", "check", "."] 2 "partial") :=
  ⟨(claim_C9_exit_code_policy ⟨fun _ => true, SpawnOutcome.completed 0 "out" "err"⟩
      ["radon", "cc"] "/tmp/p" 60 0 "out" "err" (by decide) (by decide) rfl rfl).1 rfl,
   (claim_C9_exit_code_policy ⟨fun _ => true, SpawnOutcome.completed 1 "findings" "err"⟩
      ["bandit", "-r", "."] "/tmp/p" 60 1 "findings" "err" (by decide) (by decide) rfl rfl).2.1
      rfl (Or.inl (by decide)),
   by
     have := (claim_C9_exit_code_policy ⟨fun _ => true, SpawnOutcome.completed 2 "partial" ""⟩
       ["ruff", "check", "."] "/tmp/p" 60 2 "partial" "" (by decide) (by decide) rfl rfl).2.2
       (by decide) (by decide)
     simpa using this⟩

/-- C10: `run_command` is total and exception-free: it always returns a
(Bool, String) pair (it is a total Lean function, so the result exists
for every input), and each failure mode — empty command, empty
working-directory string, non-existent working directory, missing
binary, permission error, timeout, and any other runtime error — yields
`false` with the corresponding descriptive message instead of raising.
(The non-list-command and non-string-cwd cases of the source's
`isinstance` checks are unrepresentable in this typed embedding.) -/
theorem claim_C10_run_command_total (env : Env) (command : List String)
    (cwd : String) (timeout : Nat) :
    (run_command env command cwd timeout =
      ((run_command env command cwd timeout).1, (run_command env command cwd timeout).2)) ∧
    (command = [] → run_command env command cwd timeout =
      (false, "Parameter \x27command\x27 must be a non-empty list")) ∧
    (command ≠ [] → cwd = "" → run_command env command cwd timeout =
      (false, "Parameter \x27cwd\x27 must be a non-empty string")) ∧
    (command ≠ [] → cwd ≠ "" → env.pathExists cwd = false →
      run_command env command cwd timeout =
        (false, "Directory \x27" ++ cwd ++ "\x27 does not exist")) ∧
    (command ≠ [] → cwd ≠ "" → env.pathExists cwd = true →
      env.spawn = SpawnOutcome.fileNotFound →
      run_command env command cwd timeout =
        (false, "Command \x27" ++ command.headD "" ++ "\x27 not found. Is it installed?")) ∧
    (command ≠ [] → cwd ≠ "" → env.pathExists cwd = true →
      env.spawn = SpawnOutcome.permissionDenied →
      run_command env command cwd timeout =
        (false, "Permission denied to execute \x27" ++ command.headD "" ++ "\x27")) ∧
    (command ≠ [] → cwd ≠ "" → env.pathExists cwd = true →
      env.spawn = SpawnOutcome.timedOut →
      run_command env command cwd timeout =
        (false, "Command \x27" ++ command.headD "" ++ "\x27 exceeded timeout of " ++
          toString timeout ++ " seconds")) ∧
    (∀ m : String, command ≠ [] → cwd ≠ "" → env.pathExists cwd = true →
      env.spawn = SpawnOutcome.unexpectedError m →
      run_command env command cwd timeout =
        (false, "Unexpected error running \x27" ++ command.headD "" ++ "\x27: " ++ m)) := by
  refine ⟨rfl, ?_, ?_, ?_, ?_, ?_, ?_, ?_⟩
  · intro h; simp [run_command, h]
  · intro hc hw; simp [run_command, hc, hw]
  · intro hc hw he; simp [run_command, hc, hw, he]
  · intro hc hw he hs; simp [run_command, hc, hw, he, hs]
  · intro hc hw he hs; simp [run_command, hc, hw, he, hs]
  · intro hc hw he hs; simp [run_command, hc, hw, he, hs]
  · intro m hc hw he hs; simp [run_command, hc, hw, he, hs]

/-- Witness for C10: the theorem applied at a concrete missing-binary
call, a concrete empty-command call, and a concrete non-existent
directory call. -/
theorem claim_C10_witness :
    run_command ⟨fun _ => true, SpawnOutcome.fileNotFound⟩ ["jscpd", "."] "/tmp/p" 60 =
      (false, "Command \x27jscpd\x27 not found. Is it installed?") ∧
    run_command ⟨fun _ => false, SpawnOutcome.timedOut⟩ ["bandit"] "/tmp/p" 9 =
      (false, "Directory \x27/tmp/p\x27 does not exist") :=
  ⟨by
     have h := (claim_C10_run_command_total ⟨fun _ => true, SpawnOutcome.fileNotFound⟩
       ["jscpd", "."] "/tmp/p" 60).2.2.2.2.1 (by decide) (by decide) rfl rfl
     simpa using h,
   by
     have h := (claim_C10_run_command_total ⟨fun _ => false, SpawnOutcome.timedOut⟩
       ["bandit"] "/tmp/p" 9).2.2.2.1 (by decide) (by decide) rfl
     simpa using h⟩

end ProcessUtils

namespace BanditAnalyzer

/-- Python `str.upper` on the ASCII severity and confidence tokens
involved (`Char.toUpper` character by character). -/
def pyUpper (s : String) : String := String.mk (s.data.map Char.toUpper)

/-- The severity actually used by `_map_bandit_severity`
(`bandit_analyzer.py` line 145): an empty (falsy) severity defaults to
MEDIUM, anything else is uppercased. -/
def effSeverity (s : String) : String := if s = "" then "MEDIUM" else pyUpper s

/-- The confidence actually used by `_map_bandit_severity` (line 146):
an empty (falsy) confidence defaults to MEDIUM, anything else is
uppercased. -/
def effConfidence (c : String) : String := if c = "" then "MEDIUM" else pyUpper c

/-- The if-chain of `_map_bandit_severity` (lines 148-160), on the
already-defaulted and uppercased severity and confidence. -/
def mapEffective (severity confidence : String) : String :=
  if severity = "HIGH" ∧ confidence = "HIGH" then "Critical"
  else if severity = "HIGH" then "High"
  else if severity = "MEDIUM" ∧ confidence = "HIGH" then "High"
  else if severity = "MEDIUM" then "Medium"
  else "Low"

/-- Mirrors `BanditAnalyzer._map_bandit_severity`
(`bandit_analyzer.py` lines 133-160). -/
def _map_bandit_severity (severity confidence : String) : String :=
  mapEffective (effSeverity severity) (effConfidence confidence)

/-- C6 counterexample: the empty (unrecognized) severity string does not
map to Low — it is first defaulted to MEDIUM, so with HIGH confidence the
result is High: confidence alone raised the result. -/
theorem claim_C6_counterexample : _map_bandit_severity "" "HIGH" = "High" := by decide

/-- C6 amended: `_map_bandit_severity` first defaults an empty severity
or confidence to MEDIUM and uppercases non-empty ones; on the effective
pair it is a total function into the four canonical severities that
never raises: HIGH/HIGH maps to Critical, HIGH with any other confidence
to High, MEDIUM/HIGH to High, MEDIUM with any other confidence to
Medium, and every remaining non-empty severity (LOW or unrecognized) to
Low. -/
theorem claim_C6_amended (s c : String) :
    (_map_bandit_severity s c = "Critical" ∨ _map_bandit_severity s c = "High" ∨
     _map_bandit_severity s c = "Medium" ∨ _map_bandit_severity s c = "Low") ∧
    (effSeverity s = "HIGH" → effConfidence c = "HIGH" →
      _map_bandit_severity s c = "Critical") ∧
    (effSeverity s = "HIGH" → effConfidence c ≠ "HIGH" →
      _map_bandit_severity s c = "High") ∧
    (effSeverity s = "MEDIUM" → effConfidence c = "HIGH" →
      _map_bandit_severity s c = "High") ∧
    (effSeverity s = "MEDIUM" → effConfidence c ≠ "HIGH" →
      _map_bandit_severity s c = "Medium") ∧
    (effSeverity s ≠ "HIGH" → effSeverity s ≠ "MEDIUM" →
      _map_bandit_severity s c = "Low") := by
  unfold _map_bandit_severity mapEffective
  split_ifs with h1 h2 h3 h4 <;> simp_all

/-- Witness for C6 amended at concrete mixed-case inputs. -/
theorem claim_C6_witness :
    _map_bandit_severity "High" "high" = "Critical" ∧
    _map_bandit_severity "MEDIUM" "LOW" = "Medium" ∧
    _map_bandit_severity "weird" "HIGH" = "Low" :=
  ⟨(claim_C6_amended "High" "high").2.1 (by decide) (by decide),
   (claim_C6_amended "MEDIUM" "LOW").2.2.2.2.1 (by decide) (by decide),
   (claim_C6_amended "weird" "HIGH").2.2.2.2.2 (by decide) (by decide)⟩

end BanditAnalyzer

namespace Models

/-- Mirrors `IssueCategory` (`models.py` lines 16-21), with the enum
member's string `value`. -/
inductive IssueCategory where
  | STRUCTURE
  | QUALITY
  | SECURITY
  | DEPENDENCIES
deriving DecidableEq, Repr

/-- String value of an `IssueCategory` member. -/
def IssueCategory.value : IssueCategory → String
  | IssueCategory.STRUCTURE => "Structure"
  | IssueCategory.QUALITY => "Quality"
  | IssueCategory.SECURITY => "Security"
  | IssueCategory.DEPENDENCIES => "Dependencies"

/-- Mirrors `IssueSeverity` (`models.py` lines 24-29), with the enum
member's string `value`. -/
inductive IssueSeverity where
  | CRITICAL
  | HIGH
  | MEDIUM
  | LOW
deriving DecidableEq, Repr

/-- String value of an `IssueSeverity` member. -/
def IssueSeverity.value : IssueSeverity → String
  | IssueSeverity.CRITICAL => "Critical"
  | IssueSeverity.HIGH => "High"
  | IssueSeverity.MEDIUM => "Medium"
  | IssueSeverity.LOW => "Low"

/-- Modelled from the spec: the `ToolName` identifier enum that the
analyzers pull from `app.libs.models` is not part of the captured source; the
spec (§3) describes `tool` as "the producing analyzer's identifier
(closed set, extensible)" over the lint, security, complexity,
duplication and dependency analyzers. -/
inductive ToolName where
  | RUFF
  | BANDIT
  | RADON
  | JSCPD
  | PYDEPS
deriving DecidableEq, Repr

/-- Modelled from the spec: the `StructureMetrics` record that the
analyzers pull from `app.libs.models` is not part of the captured source; the
spec (§3) lists the sparse optional metrics `cyclomatic_complexity`,
`maintainability_index`, `sloc`, `duplicate_tokens`, `duplicate_files`. -/
structure StructureMetrics where
  cyclomatic_complexity : Option ℚ := none
  maintainability_index : Option ℚ := none
  sloc : Option Nat := none
  duplicate_tokens : Option Nat := none
  duplicate_files : Option (List String) := none
deriving DecidableEq, Repr

/-- Mirrors `IssueBase` (`models.py` lines 132-139: category, severity,
title, description, file_path, line_number), extended with the fields the
analyzers' `_create_issue` populates (tool, line range, columns) and the
optional `metrics` record; the extended variant imported by the analyzers
is not part of the captured source and follows the spec's Issue schema
(§3). -/
structure IssueBase where
  tool : ToolName
  category : IssueCategory
  severity : IssueSeverity
  title : String
  description : String
  file_path : String
  line_number : Nat
  start_line : Option Nat := none
  end_line : Option Nat := none
  start_column : Option Int := none
  end_column : Option Int := none
  metrics : Option StructureMetrics := none
deriving DecidableEq, Repr

end Models

namespace JSCPDAnalyzer

open Models

/-- One side of a jscpd duplicate record (`firstFile`/`secondFile`),
restricted to the keys `_parse_jscpd_output` reads; every key is read
with `dict.get` and a default, hence optional. The JSON key `end` is
spelled `end_` here. -/
structure JscpdFile where
  name : Option String := none
  start : Option Nat := none
  end_ : Option Nat := none
deriving DecidableEq, Repr

/-- One entry of the `duplicates` array of a jscpd JSON report,
restricted to the keys `_parse_jscpd_output` reads. -/
structure JscpdDuplicate where
  firstFile : Option JscpdFile := none
  secondFile : Option JscpdFile := none
  lines : Option Nat := none
  tokens : Option Nat := none
deriving DecidableEq, Repr

/-- Python `duplicate.get('firstFile', \x7b\x7d).get('name', '')`. -/
def fileName (f : Option JscpdFile) : String := (f.bind JscpdFile.name).getD ""

/-- Python `file.get('start', 1)` (with the missing-file dict giving 1). -/
def fileStart (f : Option JscpdFile) : Nat := (f.bind JscpdFile.start).getD 1

/-- Python `file.get('end', file.get('start', 1))`. -/
def fileEnd (f : Option JscpdFile) : Nat := (f.bind JscpdFile.end_).getD (fileStart f)

/-- Mirrors `JSCPDAnalyzer._get_duplication_severity`
(`jscpd_analyzer.py` lines 134-143). -/
def _get_duplication_severity (lines tokens : Nat) : IssueSeverity :=
  if 50 ≤ lines ∨ 200 ≤ tokens then IssueSeverity.CRITICAL
  else if 20 ≤ lines ∨ 100 ≤ tokens then IssueSeverity.HIGH
  else if 10 ≤ lines ∨ 50 ≤ tokens then IssueSeverity.MEDIUM
  else IssueSeverity.LOW

/-- Body of the per-duplicate loop of `_parse_jscpd_output`
(`jscpd_analyzer.py` lines 74-127): skip the record when either file
name is empty (`continue`), otherwise emit two Issues, one anchored at
each side, each carrying a `duplicate_files` back-reference to the other
side. -/
def processDuplicate (d : JscpdDuplicate) : List IssueBase :=
  let first_path := fileName d.firstFile
  let second_path := fileName d.secondFile
  if first_path = "" ∨ second_path = "" then []
  else
    let lines_count := d.lines.getD 0
    let tokens_count := d.tokens.getD 0
    let severity := _get_duplication_severity lines_count tokens_count
    let issue1 : IssueBase :=
      { tool := ToolName.JSCPD
        category := IssueCategory.STRUCTURE
        severity := severity
        title := "Code duplication: " ++ toString lines_count ++ " lines"
        description := "Duplicated code found with " ++ second_path ++ ". " ++
          toString lines_count ++ " lines, " ++ toString tokens_count ++
          " tokens duplicated."
        file_path := first_path
        line_number := fileStart d.firstFile
        start_line := some (fileStart d.firstFile)
        end_line := some (fileEnd d.firstFile)
        metrics := some { duplicate_tokens := some tokens_count,
                          sloc := some lines_count,
                          duplicate_files := some [second_path] } }
    let issue2 : IssueBase :=
      { tool := ToolName.JSCPD
        category := IssueCategory.STRUCTURE
        severity := severity
        title := "Code duplication: " ++ toString lines_count ++ " lines"
        description := "Duplicated code found with " ++ first_path ++ ". " ++
          toString lines_count ++ " lines, " ++ toString tokens_count ++
          " tokens duplicated."
        file_path := second_path
        line_number := fileStart d.secondFile
        start_line := some (fileStart d.secondFile)
        end_line := some (fileEnd d.secondFile)
        metrics := some { duplicate_tokens := some tokens_count,
                          sloc := some lines_count,
                          duplicate_files := some [first_path] } }
    [issue1, issue2]

/-- Mirrors `_parse_jscpd_output` over the `duplicates` array of a valid
report: the loop concatenates each record's emitted issues. -/
def _parse_jscpd_output (duplicates : List JscpdDuplicate) : List IssueBase :=
  (duplicates.map processDuplicate).flatten

/-- C5: for every duplicate pair the duplication tool reports between
file A and file B (both names non-empty), the adapter emits exactly two
Issues in category Structure with the same severity: one anchored at A
whose `duplicate_files` metric references B, and one anchored at B whose
`duplicate_files` metric references A. -/
theorem claim_C5_duplication_two_issues (d : JscpdDuplicate)
    (h1 : fileName d.firstFile ≠ "") (h2 : fileName d.secondFile ≠ "") :
    ∃ a b : IssueBase, processDuplicate d = [a, b] ∧
      _parse_jscpd_output [d] = [a, b] ∧
      a.category = IssueCategory.STRUCTURE ∧ b.category = IssueCategory.STRUCTURE ∧
      a.severity = b.severity ∧
      a.file_path = fileName d.firstFile ∧ b.file_path = fileName d.secondFile ∧
      a.metrics.bind StructureMetrics.duplicate_files = some [fileName d.secondFile] ∧
      b.metrics.bind StructureMetrics.duplicate_files = some [fileName d.firstFile] := by
  have hcond : ¬(fileName d.firstFile = "" ∨ fileName d.secondFile = "") := by
    rintro (h | h)
    · exact h1 h
    · exact h2 h
  simp only [processDuplicate, _parse_jscpd_output, List.map, List.flatten,
    List.append_nil, if_neg hcond]
  exact ⟨_, _, rfl, rfl, rfl, rfl, rfl, rfl, rfl, rfl, rfl⟩

/-- Witness for C5 at a concrete duplicate record between `a.py` and
`b.py`. -/
theorem claim_C5_witness :
    ∃ a b : IssueBase,
      processDuplicate ⟨some ⟨some "a.py", some 10, some 30⟩,
        some ⟨some "b.py", some 50, some 70⟩, some 21, some 80⟩ = [a, b] ∧
      _parse_jscpd_output [⟨some ⟨some "a.py", some 10, some 30⟩,
        some ⟨some "b.py", some 50, some 70⟩, some 21, some 80⟩] = [a, b] ∧
      a.category = IssueCategory.STRUCTURE ∧ b.category = IssueCategory.STRUCTURE ∧
      a.severity = b.severity ∧
      a.file_path = fileName (some ⟨some "a.py", some 10, some 30⟩) ∧
      b.file_path = fileName (some ⟨some "b.py", some 50, some 70⟩) ∧
      a.metrics.bind StructureMetrics.duplicate_files =
        some [fileName (some ⟨some "b.py", some 50, some 70⟩)] ∧
      b.metrics.bind StructureMetrics.duplicate_files =
        some [fileName (some ⟨some "a.py", some 10, some 30⟩)] :=
  claim_C5_duplication_two_issues
    ⟨some ⟨some "a.py", some 10, some 30⟩, some ⟨some "b.py", some 50, some 70⟩,
     some 21, some 80⟩ (by decide) (by decide)

end JSCPDAnalyzer

namespace StructureScorer

/-- The percentile-threshold dict returned by
`StructureScorer._calculate_percentiles`. -/
structure Percentiles where
  p5 : ℚ
  p25 : ℚ
  p50 : ℚ
  p75 : ℚ
  p95 : ℚ
deriving DecidableEq, Repr

/-- Mirrors `numpy.percentile(values, q)` with the default linear
interpolation: on the ascending sort of `values`, the value at fractional
position `q/100 * (n-1)`. -/
def npPercentile (values : List ℚ) (q : ℚ) : ℚ :=
  let s := List.insertionSort (· ≤ ·) values
  let n := s.length
  if n = 0 then 0
  else
    let pos : ℚ := q / 100 * ((n : ℚ) - 1)
    let i : Nat := (Int.floor pos).toNat
    let frac : ℚ := pos - (i : ℚ)
    let lo := s.getD i 0
    let hi := s.getD (i + 1) lo
    lo + frac * (hi - lo)

/-- Mirrors `StructureScorer._calculate_percentiles`
(`structure_scorer.py` lines 193-204): the all-zero dict for an empty
value list, otherwise the 5th/25th/50th/75th/95th percentiles. -/
def _calculate_percentiles (values : List ℚ) : Percentiles :=
  if values = [] then ⟨0, 0, 0, 0, 0⟩
  else ⟨npPercentile values 5, npPercentile values 25, npPercentile values 50,
        npPercentile values 75, npPercentile values 95⟩

/-- Mirrors `StructureScorer._normalize_metric` (lines 206-224): risk 0
whenever the 95th and 5th percentile coincide, otherwise percentile
clamping with linear interpolation, inverted when a higher value is
better. -/
def _normalize_metric (value : ℚ) (percentiles : Percentiles)
    (higher_is_worse : Bool) : ℚ :=
  if percentiles.p95 = percentiles.p5 then 0
  else if higher_is_worse then
    if value ≤ percentiles.p5 then 0
    else if percentiles.p95 ≤ value then 1
    else (value - percentiles.p5) / (percentiles.p95 - percentiles.p5)
  else
    if percentiles.p95 ≤ value then 0
    else if value ≤ percentiles.p5 then 1
    else 1 - (value - percentiles.p5) / (percentiles.p95 - percentiles.p5)

theorem npPercentile_singleton (v q : ℚ) : npPercentile [v] q = v := by
  simp only [npPercentile, List.insertionSort, List.orderedInsert, List.length_cons,
    List.length_nil]
  norm_num

theorem calculate_percentiles_singleton (v : ℚ) :
    _calculate_percentiles [v] = ⟨v, v, v, v, v⟩ := by
  simp [_calculate_percentiles, npPercentile_singleton]

/-- C7: when a metric's 5th and 95th percentile coincide, the metric
normalization returns risk 0 for every input value and both metric
orientations; in particular with zero or exactly one file carrying the
metric every percentile band degenerates to a point and normalization
returns 0 — no division by zero or exception. -/
theorem claim_C7_degenerate_percentiles :
    (∀ (value : ℚ) (p : Percentiles) (hiw : Bool), p.p95 = p.p5 →
       _normalize_metric value p hiw = 0) ∧
    (∀ v : ℚ, _calculate_percentiles [v] = ⟨v, v, v, v, v⟩) ∧
    (∀ (v value : ℚ) (hiw : Bool),
       _normalize_metric value (_calculate_percentiles [v]) hiw = 0) ∧
    (_calculate_percentiles [] = ⟨0, 0, 0, 0, 0⟩) ∧
    (∀ (value : ℚ) (hiw : Bool),
       _normalize_metric value (_calculate_percentiles []) hiw = 0) := by
  have hdeg : ∀ (value : ℚ) (p : Percentiles) (hiw : Bool), p.p95 = p.p5 →
      _normalize_metric value p hiw = 0 := by
    intro value p hiw h
    simp [_normalize_metric, h]
  refine ⟨hdeg, calculate_percentiles_singleton, ?_, rfl, ?_⟩
  · intro v value hiw
    exact hdeg value _ hiw (by rw [calculate_percentiles_singleton])
  · intro value hiw
    exact hdeg value _ hiw rfl

/-- Witness for C7: a degenerate percentile band at a concrete point and
metric value, both orientations. -/
theorem claim_C7_witness :
    _normalize_metric 7 ⟨2, 2, 2, 2, 2⟩ true = 0 ∧
    _normalize_metric 7 ⟨2, 2, 2, 2, 2⟩ false = 0 ∧
    _normalize_metric 3 (_calculate_percentiles [42]) true = 0 :=
  ⟨claim_C7_degenerate_percentiles.1 7 ⟨2, 2, 2, 2, 2⟩ true (by decide),
   claim_C7_degenerate_percentiles.1 7 ⟨2, 2, 2, 2, 2⟩ false (by decide),
   claim_C7_degenerate_percentiles.2.2.1 42 3 true⟩

end StructureScorer

namespace StructureScorer

/-- One entry of the `file_scores` list built by
`StructureScorer._calculate_file_scores` (lines 178-189), restricted to
the fields `_identify_hotspots` reads. -/
structure FileScore where
  file_path : String
  score : ℚ
  issues_count : Nat
  complexity_score : ℚ
  maintainability_score : ℚ
  duplication_score : ℚ
  sloc : Nat
deriving DecidableEq, Repr

/-- One hotspot dict built by `_identify_hotspots` (lines 234-243). -/
structure Hotspot where
  file_path : String
  risk_score : ℚ
  priority : String
  issues_count : Nat
  complexity_score : ℚ
  maintainability_score : ℚ
  duplication_score : ℚ
  sloc : Nat
deriving DecidableEq, Repr

/-- The hotspot dict for one qualifying file (lines 232-243): priority
CRITICAL above 0.7, HIGH above 0.5, MEDIUM otherwise. -/
def hotspotOf (f : FileScore) : Hotspot :=
  { file_path := f.file_path
    risk_score := f.score
    priority := if 7/10 < f.score then "CRITICAL"
      else if 5/10 < f.score then "HIGH" else "MEDIUM"
    issues_count := f.issues_count
    complexity_score := f.complexity_score
    maintainability_score := f.maintainability_score
    duplication_score := f.duplication_score
    sloc := f.sloc }

/-- Mirrors `StructureScorer._identify_hotspots` (lines 226-245): keep
the files whose composite score exceeds 0.3, in input order, as hotspot
dicts. -/
def _identify_hotspots (file_scores : List FileScore) : List Hotspot :=
  (file_scores.filter (fun f => 3/10 < f.score)).map hotspotOf

/-- Descending-score order used by `sorted(file_scores, key=..score,
reverse=True)` at the end of `_calculate_file_scores` (line 191). -/
def scoreGE (a b : FileScore) : Prop := b.score ≤ a.score

instance : DecidableRel scoreGE := fun a b =>
  inferInstanceAs (Decidable (b.score ≤ a.score))

instance : IsTotal FileScore scoreGE := ⟨fun a b => le_total b.score a.score⟩

instance : IsTrans FileScore scoreGE := ⟨fun _ _ _ hab hbc => le_trans hbc hab⟩

/-- The descending stable sort of the file-score list (line 191). -/
def sortFileScores (l : List FileScore) : List FileScore :=
  List.insertionSort scoreGE l

/-- The hotspot list the Structure Scorer report exposes:
`_identify_hotspots(file_scores)` on the descending-sorted scores,
truncated to the top 10 (`hotspots[:10]`, line 60). -/
def hotspot_files (file_scores : List FileScore) : List Hotspot :=
  (_identify_hotspots (sortFileScores file_scores)).take 10

/-- C8: for every list of per-file composite scores, the hotspot list
returned by the Structure Scorer contains exactly the files whose
composite risk score exceeds 0.3 (up to the top-10 truncation, which is
exact whenever at most 10 files qualify), is sorted in descending order
of risk_score, assigns priority CRITICAL above 0.7, HIGH above 0.5 and
MEDIUM otherwise, and never contains more than 10 entries. -/
theorem claim_C8_hotspot_list (fs : List FileScore) :
    (hotspot_files fs).length ≤ 10 ∧
    List.Pairwise (fun a b : Hotspot => b.risk_score ≤ a.risk_score)
      (hotspot_files fs) ∧
    (∀ h ∈ hotspot_files fs, 3/10 < h.risk_score ∧
      h.priority = (if 7/10 < h.risk_score then "CRITICAL"
        else if 5/10 < h.risk_score then "HIGH" else "MEDIUM")) ∧
    ((fs.filter (fun f => 3/10 < f.score)).length ≤ 10 →
      ((hotspot_files fs).map Hotspot.file_path).Perm
        ((fs.filter (fun f => 3/10 < f.score)).map FileScore.file_path)) := by
  refine ⟨List.length_take_le _ _, ?_, ?_, ?_⟩
  · have hsorted : List.Pairwise scoreGE (sortFileScores fs) :=
      List.sorted_insertionSort scoreGE fs
    have hfiltered : List.Pairwise scoreGE
        ((sortFileScores fs).filter (fun f => 3/10 < f.score)) :=
      List.Pairwise.filter _ hsorted
    have hmapped : List.Pairwise (fun a b : Hotspot => b.risk_score ≤ a.risk_score)
        (_identify_hotspots (sortFileScores fs)) := by
      unfold _identify_hotspots
      rw [List.pairwise_map]
      exact hfiltered
    exact List.Pairwise.sublist (List.take_sublist _ _) hmapped
  · intro h hmem
    have hmem2 : h ∈ _identify_hotspots (sortFileScores fs) :=
      List.mem_of_mem_take hmem
    unfold _identify_hotspots at hmem2
    rw [List.mem_map] at hmem2
    obtain ⟨f, hf, rfl⟩ := hmem2
    rw [List.mem_filter] at hf
    have hscore : (3/10 : ℚ) < f.score := by
      have := hf.2
      simpa using this
    exact ⟨hscore, rfl⟩
  · intro hlen
    have hperm : (sortFileScores fs).Perm fs := List.perm_insertionSort scoreGE fs
    have hfperm : ((sortFileScores fs).filter (fun f => 3/10 < f.score)).Perm
        (fs.filter (fun f => 3/10 < f.score)) := hperm.filter _
    have hflen : ((sortFileScores fs).filter (fun f => 3/10 < f.score)).length ≤ 10 := by
      rw [hfperm.length_eq]
      exact hlen
    have htake : hotspot_files fs = _identify_hotspots (sortFileScores fs) := by
      unfold hotspot_files
      refine List.take_of_length_le ?_
      unfold _identify_hotspots
      rw [List.length_map]
      exact hflen
    rw [htake]
    unfold _identify_hotspots
    rw [List.map_map]
    have hcomp : (Hotspot.file_path ∘ hotspotOf) = FileScore.file_path := rfl
    rw [hcomp]
    exact hfperm.map _

/-- Witness for C8, projecting the truncation-exactness conjunct at a
concrete three-file list (two qualifying files, descending order). -/
theorem claim_C8_witness :
    ((hotspot_files
        [⟨"a.py", 2/10, 1, 0, 0, 0, 10⟩,
         ⟨"b.py", 8/10, 2, 0, 0, 0, 20⟩,
         ⟨"c.py", 4/10, 3, 0, 0, 0, 30⟩]).map Hotspot.file_path).Perm
      (([⟨"a.py", 2/10, 1, 0, 0, 0, 10⟩,
         ⟨"b.py", 8/10, 2, 0, 0, 0, 20⟩,
         ⟨"c.py", 4/10, 3, 0, 0, 0, 30⟩].filter
            (fun f : FileScore => 3/10 < f.score)).map FileScore.file_path) :=
  (claim_C8_hotspot_list
    [⟨"a.py", 2/10, 1, 0, 0, 0, 10⟩,
     ⟨"b.py", 8/10, 2, 0, 0, 0, 20⟩,
     ⟨"c.py", 4/10, 3, 0, 0, 0, 30⟩]).2.2.2 (by norm_num [List.filter])

end StructureScorer
